import Mathlib

/-!
Verification of the tabular data access layer: shallow embedding of the
SQLite reader module (`mapSqliteType`, `validateTableName`, `validateSqlQuery`,
`querySqlite`, `previewSqliteTable`) and of the DuckDB parser module
(`mapDuckDBType`, `processRow`, `parseDuckDBFile`, `extractSheetNamesFromXlsx`,
`listExcelSheets`), together with theorems checking the specification's
claims about them.

Modelling conventions:
* JavaScript strings are Lean `String`s; most character-level work happens on
  `List Char` via `String.data`.  The handful of JS string primitives the
  source uses (`trim`, `toUpperCase`, `toLowerCase`, `startsWith`, `includes`)
  are given explicit ASCII models below.
* Byte buffers are `List Nat` (each entry one byte).  `Buffer.readUIntNNLE`
  is modelled with an explicit range check returning `Option` (an
  out-of-range read in Node throws, modelled as `none` which the scanner
  converts into an `Except.error`); `Buffer.toString('utf8', a, b)` clamps
  its range, modelled with `List.drop`/`List.take`.
* The embedded database engines are modelled by their observable behaviour:
  a SQLite database is a list of named tables (its `sqlite_master` catalog
  together with each table's rows), `SELECT * FROM t LIMIT l OFFSET o` is
  `(rows.drop o).take l`, `COUNT(*)` is `rows.length`.  The raw-DEFLATE
  decompressor is an abstract parameter `inflate : List Nat → Option (List Nat)`
  (`none` models a decompression error).
-/

/-- One byte of the ASCII uppercase conversion used by JS `toUpperCase`
(ASCII fragment, which is all the source's inputs of interest use). -/
def upChar (c : Char) : Char :=
  if 97 ≤ c.toNat ∧ c.toNat ≤ 122 then Char.ofNat (c.toNat - 32) else c

/-- ASCII fragment of JS `toLowerCase`. -/
def lowChar (c : Char) : Char :=
  if 65 ≤ c.toNat ∧ c.toNat ≤ 90 then Char.ofNat (c.toNat + 32) else c

/-- Whitespace characters removed by JS `String.prototype.trim` (ASCII part). -/
def isJsSpace (c : Char) : Bool :=
  (c == ' ') || (c == '\t') || (c == '\n') || (c == '\r') || (c == '\x0b') || (c == '\x0c')

/-- Whitespace in the sense of the JS regex class `\s` (ASCII part). -/
def isWsChar (c : Char) : Bool :=
  (c == ' ') || (c == '\t') || (c == '\n') || (c == '\r') || (c == '\x0b') || (c == '\x0c')

/-- Word character in the sense of the JS regex class `\w` = `[A-Za-z0-9_]`,
used by the `\b` word-boundary assertions of the keyword blocklist. -/
def isWordChar (c : Char) : Bool :=
  (65 ≤ c.toNat ∧ c.toNat ≤ 90) || (97 ≤ c.toNat ∧ c.toNat ≤ 122) ||
    (48 ≤ c.toNat ∧ c.toNat ≤ 57) || (c == '_')

/-- ASCII digit test (JS regex class `\d`). -/
def isDigitChar (c : Char) : Bool := 48 ≤ c.toNat ∧ c.toNat ≤ 57

/-- The single-quote character (ASCII 39). -/
def squote : Char := Char.ofNat 39

/-- Rebuild a `String` from its character list. -/
def strOfChars (cs : List Char) : String := String.mk cs

/-- JS `s.trim()`. -/
def trimStr (s : String) : String :=
  strOfChars (((s.data.dropWhile isJsSpace).reverse.dropWhile isJsSpace).reverse)

/-- JS `s.toUpperCase()` (ASCII fragment). -/
def upStr (s : String) : String := strOfChars (s.data.map upChar)

/-- JS `s.toLowerCase()` (ASCII fragment). -/
def lowerStr (s : String) : String := strOfChars (s.data.map lowChar)

/-- JS `hay.includes(needle)` on character lists. -/
def listHasSub (needle : List Char) : List Char → Bool
  | [] => needle.isEmpty
  | c :: rest => needle.isPrefixOf (c :: rest) || listHasSub needle rest

/-- The closed column-type taxonomy of the parser layer
(`ColumnType` in `types.ts`). -/
inductive ColumnType where
  | string
  | number
  | boolean
  | date
  | null
  | mixed
deriving DecidableEq, Repr

/-- A parsed column: display name plus mapped taxonomy type
(`ParsedColumn` in `types.ts`). -/
structure ParsedColumn where
  name : String
  type : ColumnType
deriving DecidableEq, Repr

/-- `ParsedData`, generic over the row representation used by the reader at
hand (`ParsedData` in `types.ts`). -/
structure ParsedData (ρ : Type) where
  columns : List ParsedColumn
  rows : List ρ
  totalRows : Nat
  truncated : Bool
deriving DecidableEq, Repr

/-- `mapSqliteType` from the SQLite reader: map a declared SQLite column type
(possibly `null`, modelled as `Option.none`; the JS falsy test also catches
the empty string) to the taxonomy by case-insensitive substring matching. -/
def mapSqliteType (sqliteType : Option String) : ColumnType :=
  match sqliteType with
  | none => ColumnType.mixed
  | some t =>
    if t = ("") then ColumnType.mixed
    else
      let upperType := (upStr t).data
      if listHasSub (("INT").data) upperType || listHasSub (("REAL").data) upperType ||
          listHasSub (("FLOAT").data) upperType || listHasSub (("DOUBLE").data) upperType ||
          listHasSub (("NUMERIC").data) upperType || listHasSub (("DECIMAL").data) upperType then
        ColumnType.number
      else if listHasSub (("BOOL").data) upperType then
        ColumnType.boolean
      else if listHasSub (("DATE").data) upperType || listHasSub (("TIME").data) upperType ||
          listHasSub (("TIMESTAMP").data) upperType then
        ColumnType.date
      else if listHasSub (("TEXT").data) upperType || listHasSub (("CHAR").data) upperType ||
          listHasSub (("CLOB").data) upperType || listHasSub (("VARCHAR").data) upperType then
        ColumnType.string
      else if listHasSub (("BLOB").data) upperType then
        ColumnType.string
      else ColumnType.mixed

/-- `mapDuckDBType` from the DuckDB parser: map a DuckDB type string to the
taxonomy.  Note the fall-through default is `string`, not `mixed`. -/
def mapDuckDBType (duckdbType : String) : ColumnType :=
  let type := (upStr duckdbType).data
  if listHasSub (("INT").data) type || listHasSub (("BIGINT").data) type ||
      listHasSub (("SMALLINT").data) type || listHasSub (("TINYINT").data) type ||
      listHasSub (("HUGEINT").data) type then
    ColumnType.number
  else if listHasSub (("FLOAT").data) type || listHasSub (("DOUBLE").data) type ||
      listHasSub (("DECIMAL").data) type || listHasSub (("REAL").data) type then
    ColumnType.number
  else if listHasSub (("BOOL").data) type then
    ColumnType.boolean
  else if listHasSub (("DATE").data) type || listHasSub (("TIME").data) type ||
      listHasSub (("TIMESTAMP").data) type then
    ColumnType.date
  else ColumnType.string

/-- Replacement character produced by UTF-8 decoding failures. -/
def replChar : Char := Char.ofNat 65533

/-- Decoder worker for Node's `buffer.toString('utf8', ...)`: standard UTF-8
with an (ASCII-faithful) replacement-character fallback on malformed input.
Fuel-indexed so it computes by kernel reduction; one unit of fuel consumes at
least one byte. -/
def decodeUtf8Go : Nat → List Nat → List Char
  | 0, _ => []
  | _, [] => []
  | fuel + 1, b :: rest =>
    if b < 128 then Char.ofNat b :: decodeUtf8Go fuel rest
    else if 194 ≤ b ∧ b ≤ 223 then
      match rest with
      | b2 :: rest2 =>
        if 128 ≤ b2 ∧ b2 ≤ 191 then
          Char.ofNat ((b - 192) * 64 + (b2 - 128)) :: decodeUtf8Go fuel rest2
        else replChar :: decodeUtf8Go fuel rest
      | [] => [replChar]
    else if 224 ≤ b ∧ b ≤ 239 then
      match rest with
      | b2 :: b3 :: rest3 =>
        if (128 ≤ b2 ∧ b2 ≤ 191) ∧ (128 ≤ b3 ∧ b3 ≤ 191) ∧
            (b = 224 → 160 ≤ b2) ∧ (b = 237 → b2 ≤ 159) then
          Char.ofNat ((b - 224) * 4096 + (b2 - 128) * 64 + (b3 - 128)) :: decodeUtf8Go fuel rest3
        else replChar :: decodeUtf8Go fuel rest
      | _ => replChar :: decodeUtf8Go fuel rest
    else if 240 ≤ b ∧ b ≤ 244 then
      match rest with
      | b2 :: b3 :: b4 :: rest4 =>
        if (128 ≤ b2 ∧ b2 ≤ 191) ∧ (128 ≤ b3 ∧ b3 ≤ 191) ∧ (128 ≤ b4 ∧ b4 ≤ 191) ∧
            (b = 240 → 144 ≤ b2) ∧ (b = 244 → b2 ≤ 143) then
          Char.ofNat ((b - 240) * 262144 + (b2 - 128) * 4096 + (b3 - 128) * 64 + (b4 - 128)) ::
            decodeUtf8Go fuel rest4
        else replChar :: decodeUtf8Go fuel rest
      | _ => replChar :: decodeUtf8Go fuel rest
    else replChar :: decodeUtf8Go fuel rest

/-- UTF-8 decoding of a byte list (model of Node's utf8 `Buffer.toString`). -/
def decodeUtf8 (bs : List Nat) : List Char := decodeUtf8Go (bs.length + 1) bs

/-- UTF-8 encoding of an ASCII string into bytes (used to build the synthetic
workbook payloads; all payloads of interest are ASCII). -/
def asciiBytes (s : String) : List Nat := s.data.map Char.toNat

/-- The JavaScript values that can appear in a row coming back from an
embedded engine, as far as the materialization step distinguishes them:
numbers, strings, booleans, bigints, `Date` objects (carried by their
ISO-8601 rendering, which is the only observation `processRow` makes of
them), `Buffer`s (carried as byte lists) and `null`. -/
inductive JSValue where
  | num (x : Int)
  | str (s : String)
  | bool (b : Bool)
  | bigint (i : Int)
  | date (iso : String)
  | buffer (bytes : List Nat)
  | null
deriving DecidableEq, Repr

/-- One JS row: an object modelled as its ordered key/value entries. -/
abbrev JSRow : Type := List (String × JSValue)

/-- The per-value coercion applied by `processRow` in the DuckDB parser:
bigint ↦ `Number(value)` (modelled exactly on `Int`), `Date` ↦
`value.toISOString()`, `Buffer` ↦ `value.toString("utf-8")`, anything else
unchanged. -/
def coerceValue : JSValue → JSValue
  | JSValue.bigint i => JSValue.num i
  | JSValue.date iso => JSValue.str iso
  | JSValue.buffer bs => JSValue.str (strOfChars (decodeUtf8 bs))
  | v => v

/-- `processRow` from the DuckDB parser: rebuild the row entry by entry,
coercing each value for JSON serialization. -/
def processRow (row : JSRow) : JSRow :=
  row.map (fun kv => (kv.1, coerceValue kv.2))

/-- The ISO-date-prefix test `/^\d{4}-\d{2}-\d{2}/.test(value)` used by
`inferTypeFromValue`. -/
def isoDatePrefixTest (s : String) : Bool :=
  match s.data with
  | a :: b :: c :: d :: e :: f :: g :: h :: i :: j :: _ =>
    isDigitChar a && isDigitChar b && isDigitChar c && isDigitChar d &&
      (e == '-') && isDigitChar f && isDigitChar g && (h == '-') &&
      isDigitChar i && isDigitChar j
  | _ => false

/-- `inferTypeFromValue` from the SQLite reader: fallback per-value type
inference for result sets with no declared schema. -/
def inferTypeFromValue : JSValue → ColumnType
  | JSValue.null => ColumnType.null
  | JSValue.bool _ => ColumnType.boolean
  | JSValue.num _ => ColumnType.number
  | JSValue.str s => if isoDatePrefixTest s then ColumnType.date else ColumnType.string
  | _ => ColumnType.mixed

/-- The fixed keyword blocklist of `validateSqlQuery`. -/
def dangerousKeywords : List String :=
  [("INSERT"), ("UPDATE"), ("DELETE"), ("DROP"), ("CREATE"), ("ALTER"),
    ("TRUNCATE"), ("REPLACE"), ("ATTACH"), ("DETACH"), ("PRAGMA")]

/-- Case-insensitive match of an (upper-case) keyword against a prefix of the
input. -/
def ciPrefixMatch : List Char → List Char → Bool
  | [], _ => true
  | _ :: _, [] => false
  | k :: ks, c :: cs => (upChar c == k) && ciPrefixMatch ks cs

/-- The right word-boundary of `\bKEYWORD\b`: after the keyword the input
ends or continues with a non-word character. -/
def afterBoundaryOk (kwLen : Nat) (s : List Char) : Bool :=
  match s.drop kwLen with
  | [] => true
  | c :: _ => !isWordChar c

/-- The left word-boundary: at the very start, or right after a non-word
character. -/
def beforeBoundaryOk : Option Char → Bool
  | none => true
  | some c => !isWordChar c

/-- Worker scanning all start positions for a whole-word case-insensitive
keyword occurrence (`prev` is the character just before the current
position). -/
def wwAux (kw : List Char) : Option Char → List Char → Bool
  | _, [] => false
  | prev, c :: rest =>
    (beforeBoundaryOk prev && ciPrefixMatch kw (c :: rest) && afterBoundaryOk kw.length (c :: rest)) ||
      wwAux kw (some c) rest

/-- Model of `new RegExp("\\b" + keyword + "\\b", "i").test(sql)` for an
all-letter keyword: the keyword occurs somewhere in `s`, case-insensitively,
delimited by word boundaries. -/
def containsWholeWordCI (kw s : List Char) : Bool := wwAux kw none s

/-- `validateSqlQuery` from the SQLite reader: only SELECT statements are
allowed, and none of the blocklisted keywords may occur as a whole word
anywhere in the original statement. -/
def validateSqlQuery (sql : String) : Except String Unit :=
  let trimmedSql := upStr (trimStr sql)
  if ¬ (("SELECT").data.isPrefixOf trimmedSql.data) then
    Except.error ("Only SELECT queries are allowed")
  else
    match dangerousKeywords.find? (fun kw => containsWholeWordCI kw.data sql.data) with
    | some kw => Except.error (("Query contains forbidden keyword: ") ++ kw)
    | none => Except.ok ()

/-- The inline LIMIT safety net of `querySqlite` (the spec's
`ensureLimit(sql, defaultLimit)`): starting from the trimmed statement, if
its upper-cased text does not contain the substring `LIMIT` and starts with
`SELECT`, append a `LIMIT` clause. -/
def ensureLimit (sql : String) (limit : Nat) : String :=
  let querySql := trimStr sql
  if ¬ (listHasSub (("LIMIT").data) (upStr querySql).data) ∧
      (("SELECT").data.isPrefixOf (upStr querySql).data) then
    querySql ++ (" LIMIT ") ++ toString limit
  else querySql

/-- One user table of a SQLite database file: its catalog name, its declared
column metadata (what `PRAGMA table_info` reports, already mapped), and its
rows. -/
structure SqliteTable (α : Type) where
  name : String
  cols : List ParsedColumn
  rows : List α

/-- A SQLite database file, modelled by its catalog of user tables. -/
def SqliteDb (α : Type) : Type := List (SqliteTable α)

/-- The parametrized catalog lookup
`SELECT name FROM sqlite_master WHERE type='table' AND name = ?`:
the bound name is compared as data against the catalog, never spliced into
SQL text. -/
def findTable (db : SqliteDb α) (tableName : String) : Option (SqliteTable α) :=
  db.find? (fun t => t.name == tableName)

/-- `validateTableName` from the SQLite reader: fail with a not-found error
when the parametrized catalog lookup returns no row. -/
def validateTableName (db : SqliteDb α) (tableName : String) : Except String Unit :=
  match findTable db tableName with
  | some _ => Except.ok ()
  | none => Except.error (("Table not found: ") ++ tableName)

/-- `previewSqliteTable` from the SQLite reader: validate the table name
against the catalog, then (only for a validated name) run the `COUNT(*)`
query and the paginated `SELECT * FROM <escaped> LIMIT ? OFFSET ?`; the
engine's window semantics is `(rows.drop offset).take limit`. -/
def previewSqliteTable (db : SqliteDb α) (tableName : String) (limit offset : Nat) :
    Except String (ParsedData α) :=
  match findTable db tableName with
  | none => Except.error (("Table not found: ") ++ tableName)
  | some t =>
    let totalRows := t.rows.length
    let rows := (t.rows.drop offset).take limit
    Except.ok
      { columns := t.cols
        rows := rows
        totalRows := totalRows
        truncated := decide (offset + limit < totalRows) }

/-- The result-assembly tail of `querySqlite` (everything after
`stmt.all()` returned `rows`): the canonical empty `ParsedData` on an empty
result, else columns inferred from the first row and
`truncated = rows.length >= limit`. -/
def querySqliteAssemble (engineRows : List JSRow) (limit : Nat) :
    ParsedData JSRow :=
  match engineRows with
  | [] => { columns := [], rows := [], totalRows := 0, truncated := false }
  | first :: rest =>
    { columns := first.map (fun kv => { name := kv.1, type := inferTypeFromValue kv.2 })
      rows := first :: rest
      totalRows := (first :: rest).length
      truncated := decide ((first :: rest).length ≥ limit) }

/-- `querySqlite` from the SQLite reader, with the engine abstracted as a
function from the executed SQL text to the rows it returns: validate the
query, apply the LIMIT safety net, execute, assemble. -/
def querySqlite (engine : String → List JSRow) (sql : String) (limit : Nat) :
    Except String (ParsedData JSRow) :=
  match validateSqlQuery sql with
  | Except.error e => Except.error e
  | Except.ok _ => Except.ok (querySqliteAssemble (engine (ensureLimit sql limit)) limit)

/-- `parseDuckDBFile` from the DuckDB parser, at the point where the engine
session is abstracted by what its three queries observe of the file:
`describe` is the `DESCRIBE` result (column name/type pairs), `fileRows` the
full relation (`COUNT(*)` is its length, `LIMIT/OFFSET` its window).  Every
returned row passes through `processRow`. -/
def parseDuckDBFile (describe : List (String × String)) (fileRows : List JSRow)
    (limit offset : Nat) : ParsedData JSRow :=
  let columns := describe.map (fun nt => { name := nt.1, type := mapDuckDBType nt.2 : ParsedColumn })
  let totalRows := fileRows.length
  let rows := ((fileRows.drop offset).take limit).map processRow
  { columns := columns
    rows := rows
    totalRows := totalRows
    truncated := decide (offset + rows.length < totalRows) }

/-- The basename part of a path (everything after the last `/`). -/
def basenameChars (p : List Char) : List Char :=
  (p.reverse.takeWhile (fun c => ¬ c = '/')).reverse

/-- Model of Node's `path.extname`: the suffix of the basename starting at
its last dot, empty when there is no dot or the only dot is the leading one
(dotfiles have no extension). -/
def extname (p : String) : String :=
  let b := basenameChars p.data
  let revAfterDot := b.reverse.takeWhile (fun c => ¬ c = '.')
  if revAfterDot.length = b.length then ("")
  else if revAfterDot.length + 1 = b.length ∧ b.head? = some '.' then ("")
  else strOfChars ('.' :: revAfterDot.reverse)

/-- `buffer.readUInt16LE(off)`: two little-endian bytes, `none` when the read
is out of range (Node throws a `RangeError`). -/
def readU16 (buf : List Nat) (off : Nat) : Option Nat :=
  if off + 2 ≤ buf.length then
    some (buf.getD off 0 + 256 * buf.getD (off + 1) 0)
  else none

/-- `buffer.readUInt32LE(off)`: four little-endian bytes, `none` when out of
range. -/
def readU32 (buf : List Nat) (off : Nat) : Option Nat :=
  if off + 4 ≤ buf.length then
    some (buf.getD off 0 + 256 * buf.getD (off + 1) 0 + 65536 * buf.getD (off + 2) 0 +
      16777216 * buf.getD (off + 3) 0)
  else none

/-- The clamping byte-range slice used by `buffer.subarray(a, b)` and by
`buffer.toString('utf8', a, b)`. -/
def sliceBytes (buf : List Nat) (a b : Nat) : List Nat := (buf.drop a).take (b - a)

/-- `buffer.toString('utf8', a, b)`. -/
def bufSubstring (buf : List Nat) (a b : Nat) : String :=
  strOfChars (decodeUtf8 (sliceBytes buf a b))

/-- Case-insensitive match of a lowercase literal pattern against a prefix
of the input (the `i` flag of the sheet-name regexes). -/
def lowPrefixMatch : List Char → List Char → Bool
  | [], _ => true
  | _ :: _, [] => false
  | k :: ks, c :: cs => (lowChar c == k) && lowPrefixMatch ks cs

/-- Split a character list at its first `>`: the part strictly before it and
the part strictly after it (`none` when there is no `>`). -/
def splitAtGt : List Char → Option (List Char × List Char)
  | [] => none
  | c :: rest =>
    if c == '>' then some ([], rest)
    else
      match splitAtGt rest with
      | some pq => some (c :: pq.1, pq.2)
      | none => none

/-- All matches of the tag regex `/<sheet\s+[^>]*>/gi` in document order:
at each position, a case-insensitive literal `<sheet` followed by at least
one whitespace character matches up to the first subsequent `>`; the global
flag resumes the scan right after each match.  Fuel-indexed (each step
consumes at least one character). -/
def findSheetTags : Nat → List Char → List (List Char)
  | 0, _ => []
  | _, [] => []
  | fuel + 1, c :: rest =>
    if lowPrefixMatch (("<sheet").data) (c :: rest) &&
        (match (c :: rest).drop 6 with
         | w :: _ => isWsChar w
         | [] => false) then
      match splitAtGt ((c :: rest).drop 6) with
      | some pq => ((c :: rest).take 6 ++ pq.1 ++ ['>']) :: findSheetTags fuel pq.2
      | none => []
    else findSheetTags fuel rest

/-- One attempted match of `/name=["']([^"']+)["']/i` anchored at the start
of `s`: literal `name=` (case-insensitive), an opening quote of either kind,
a non-empty run of non-quote characters (the capture), and a closing quote
of either kind. -/
def tryNameAt (s : List Char) : Option (List Char) :=
  if lowPrefixMatch (("name=").data) s then
    match s.drop 5 with
    | q :: afterQ =>
      if q == '"' || q == squote then
        let value := afterQ.takeWhile (fun c => !(c == '"' || c == squote))
        match afterQ.dropWhile (fun c => !(c == '"' || c == squote)) with
        | _ :: _ => if value.isEmpty then none else some value
        | [] => none
      else none
    | [] => none
  else none

/-- The leftmost match of the name-attribute regex inside one matched tag:
try every start position left to right. -/
def extractNameAttr : Nat → List Char → Option (List Char)
  | 0, _ => none
  | _, [] => none
  | fuel + 1, c :: rest =>
    match tryNameAt (c :: rest) with
    | some v => some v
    | none => extractNameAttr fuel rest

/-- The two regex passes over the decoded workbook XML: every `<sheet ...>`
opening tag in document order, then from each tag the `name` attribute value
(tags without one are skipped, matching the truthiness check on the capture). -/
def parseSheetNames (xml : String) : List String :=
  (findSheetTags (xml.data.length + 1) xml.data).filterMap
    (fun tag => (extractNameAttr (tag.length + 1) tag).map (fun v => strOfChars v))

/-- The little-endian value of the ZIP local-file-header signature bytes
`50 4B 03 04`. -/
def zipSig : Nat := 67324752

/-- The header-scan loop of `extractSheetNamesFromXlsx`, fuel-indexed:
`none` means the fuel ran out (never happens from the top-level entry point,
see the termination theorem), `some (Except.error _)` models an uncaught
exception from an out-of-range buffer read, `some (Except.ok sheets)` a
normal exit.  Each iteration mirrors the source: check the loop condition,
read the signature, break on mismatch, read the fixed-offset header fields,
decode the filename, and either handle `xl/workbook.xml` (stored payloads
are UTF-8-decoded directly; deflated ones go through `inflate`, a failure
breaking with the empty accumulator; other compression methods break) or
advance to `dataEnd`. -/
def scanZip (inflate : List Nat → Option (List Nat)) :
    Nat → List Nat → Nat → Option (Except String (List String))
  | 0, _, _ => none
  | fuel + 1, buf, off =>
    if off < buf.length - 4 then
      match readU32 buf off with
      | none => some (Except.error ("RangeError"))
      | some signature =>
        if signature = zipSig then
          match readU16 buf (off + 8), readU32 buf (off + 18), readU32 buf (off + 22),
              readU16 buf (off + 26), readU16 buf (off + 28) with
          | some compressionMethod, some compressedSize, some _uncompressedSize,
              some fileNameLength, some extraFieldLength =>
            let fileName := bufSubstring buf (off + 30) (off + 30 + fileNameLength)
            let dataStart := off + 30 + fileNameLength + extraFieldLength
            let dataEnd := dataStart + compressedSize
            if fileName = ("xl/workbook.xml") then
              if compressionMethod = 0 then
                some (Except.ok (parseSheetNames (bufSubstring buf dataStart dataEnd)))
              else if compressionMethod = 8 then
                match inflate (sliceBytes buf dataStart dataEnd) with
                | some decompressed =>
                  some (Except.ok (parseSheetNames (strOfChars (decodeUtf8 decompressed))))
                | none => some (Except.ok [])
              else some (Except.ok [])
            else scanZip inflate fuel buf dataEnd
          | _, _, _, _, _ => some (Except.error ("RangeError"))
        else some (Except.ok [])
    else some (Except.ok [])

/-- `extractSheetNamesFromXlsx` from the DuckDB parser, over the file's byte
buffer and the abstract raw-DEFLATE decompressor.  The scan starts at offset
0 with enough fuel for the whole buffer (the termination theorem shows the
fallback default is never taken). -/
def extractSheetNamesFromXlsx (inflate : List Nat → Option (List Nat)) (buf : List Nat) :
    Except String (List String) :=
  (scanZip inflate (buf.length + 1) buf 0).getD (Except.ok [])

/-- The dedicated warning logged for legacy `.xls` files. -/
def xlsUnsupportedWarn : String :=
  "[duckdb-parser] .xls format is not supported. Only .xlsx files are supported."

/-- The warning logged when a workbook yields no sheet names. -/
def noSheetsWarn : String := "[duckdb-parser] No sheets found in Excel file"

/-- The warning logged by the catch-all handler of `listExcelSheets`. -/
def listSheetsFailWarn : String := "[duckdb-parser] Failed to list Excel sheets"

/-- Observable outcome of one `listExcelSheets` call: a normal return
carrying the `console.warn` messages it logged and the sheet list, or an
uncaught exception.  The `err` constructor exists to express what "throws"
would look like; the theorems show the implementation never produces it. -/
inductive SheetListOutcome where
  | ok (warnings : List String) (sheets : List String)
  | err (msg : String)
deriving DecidableEq, Repr

/-- `true` exactly on outcomes that represent an uncaught error. -/
def isErrorOutcome : SheetListOutcome → Bool
  | SheetListOutcome.err _ => true
  | SheetListOutcome.ok _ _ => false

/-- The sheet list of a normal outcome. -/
def outcomeSheets : SheetListOutcome → List String
  | SheetListOutcome.ok _ sheets => sheets
  | SheetListOutcome.err _ => []

/-- `listExcelSheets` from the DuckDB parser: reject legacy `.xls` by
extension before any ZIP parsing, otherwise run the extractor over the
file's bytes with every failure path converted into a warning plus the empty
list (the `try`/`catch` and the empty-result check). -/
def listExcelSheets (inflate : List Nat → Option (List Nat)) (filePath : String)
    (buf : List Nat) : SheetListOutcome :=
  let ext := lowerStr (extname filePath)
  if ext = (".xls") then SheetListOutcome.ok [xlsUnsupportedWarn] []
  else
    match extractSheetNamesFromXlsx inflate buf with
    | Except.error _ => SheetListOutcome.ok [listSheetsFailWarn] []
    | Except.ok sheets =>
      if sheets.isEmpty then SheetListOutcome.ok [noSheetsWarn] []
      else SheetListOutcome.ok [] sheets

/-- A synthetic single-entry ZIP layout: the 4 signature bytes, arbitrary
version/flag bytes `v0 v1 f0 f1`, compression-method bytes `m0 m1`,
arbitrary mod-time/date/CRC bytes `t0 t1 d0 d1 c0 c1 c2 c3`,
compressed-size bytes `cs0..cs3`, uncompressed-size bytes `u0..u3`, the
filename and extra-field lengths encoded from the actual lists, then the
filename bytes `nb`, the extra field `ex`, the entry payload, and arbitrary
trailing bytes (central directory etc.). -/
def mkEntry (v0 v1 f0 f1 m0 m1 t0 t1 d0 d1 c0 c1 c2 c3 cs0 cs1 cs2 cs3 u0 u1 u2 u3 : Nat)
    (nb ex payload trailing : List Nat) : List Nat :=
  80 :: 75 :: 3 :: 4 :: v0 :: v1 :: f0 :: f1 :: m0 :: m1 :: t0 :: t1 :: d0 :: d1 ::
    c0 :: c1 :: c2 :: c3 :: cs0 :: cs1 :: cs2 :: cs3 :: u0 :: u1 :: u2 :: u3 ::
    (nb.length % 256) :: (nb.length / 256) :: (ex.length % 256) :: (ex.length / 256) ::
    (nb ++ (ex ++ (payload ++ trailing)))

-- scratch development of ZIP lemmas

/-- A genuine byte buffer: every entry fits in one byte. -/
def isByteList (l : List Nat) : Bool := l.all (fun b => b < 256)

/-- The synthetic workbook XML used to exercise the sheet extractor: two
`<sheet>` tags, the second with its `name` attribute after another
attribute. -/
def xlsxSheetXml : String :=
  "<workbook><sheets><sheet name=\"A\" sheetId=\"1\"/><sheet sheetId=\"2\" name=\"B\"/></sheets></workbook>"

/-- The bytes of the entry name `xl/workbook.xml`. -/
def workbookEntryName : List Nat := asciiBytes ("xl/workbook.xml")

/-- The bytes of the synthetic workbook XML payload. -/
def c6Payload : List Nat := asciiBytes xlsxSheetXml

/-- A synthetic single-entry ZIP whose only (stored) entry is
`xl/workbook.xml` with the synthetic workbook payload and correctly
populated header size fields; version/flag/time/date/CRC/uncompressed-size
bytes, the extra field and any trailing bytes are arbitrary. -/
def c6Zip (v0 v1 f0 f1 t0 t1 d0 d1 c0 c1 c2 c3 u0 u1 u2 u3 : Nat)
    (ex trailing : List Nat) : List Nat :=
  mkEntry v0 v1 f0 f1 0 0 t0 t1 d0 d1 c0 c1 c2 c3
    (c6Payload.length % 256) (c6Payload.length / 256) 0 0 u0 u1 u2 u3
    workbookEntryName ex c6Payload trailing

set_option maxRecDepth 8000

section ZipLemmas

variable (inflate : List Nat → Option (List Nat))
variable (v0 v1 f0 f1 m0 m1 t0 t1 d0 d1 c0 c1 c2 c3 cs0 cs1 cs2 cs3 u0 u1 u2 u3 : Nat)
variable (nb ex payload trailing : List Nat)

theorem mkEntry_length :
    (mkEntry v0 v1 f0 f1 m0 m1 t0 t1 d0 d1 c0 c1 c2 c3 cs0 cs1 cs2 cs3 u0 u1 u2 u3 nb ex payload trailing).length
      = 30 + nb.length + ex.length + payload.length + trailing.length := by
  simp [mkEntry]
  omega

theorem mkEntry_sig :
    readU32 (mkEntry v0 v1 f0 f1 m0 m1 t0 t1 d0 d1 c0 c1 c2 c3 cs0 cs1 cs2 cs3 u0 u1 u2 u3 nb ex payload trailing) 0
      = some zipSig := by
  have hl := mkEntry_length v0 v1 f0 f1 m0 m1 t0 t1 d0 d1 c0 c1 c2 c3 cs0 cs1 cs2 cs3 u0 u1 u2 u3 nb ex payload trailing
  unfold readU32
  rw [if_pos (by omega)]
  show some ((80:Nat) + 256 * 75 + 65536 * 3 + 16777216 * 4) = some zipSig
  norm_num [zipSig]

theorem mkEntry_method :
    readU16 (mkEntry v0 v1 f0 f1 m0 m1 t0 t1 d0 d1 c0 c1 c2 c3 cs0 cs1 cs2 cs3 u0 u1 u2 u3 nb ex payload trailing) 8
      = some (m0 + 256 * m1) := by
  have hl := mkEntry_length v0 v1 f0 f1 m0 m1 t0 t1 d0 d1 c0 c1 c2 c3 cs0 cs1 cs2 cs3 u0 u1 u2 u3 nb ex payload trailing
  unfold readU16
  rw [if_pos (by omega)]
  show some (m0 + 256 * m1) = some (m0 + 256 * m1)
  rfl

theorem mkEntry_csize :
    readU32 (mkEntry v0 v1 f0 f1 m0 m1 t0 t1 d0 d1 c0 c1 c2 c3 cs0 cs1 cs2 cs3 u0 u1 u2 u3 nb ex payload trailing) 18
      = some (cs0 + 256 * cs1 + 65536 * cs2 + 16777216 * cs3) := by
  have hl := mkEntry_length v0 v1 f0 f1 m0 m1 t0 t1 d0 d1 c0 c1 c2 c3 cs0 cs1 cs2 cs3 u0 u1 u2 u3 nb ex payload trailing
  unfold readU32
  rw [if_pos (by omega)]
  show some (cs0 + 256 * cs1 + 65536 * cs2 + 16777216 * cs3)
    = some (cs0 + 256 * cs1 + 65536 * cs2 + 16777216 * cs3)
  rfl

theorem mkEntry_usize :
    readU32 (mkEntry v0 v1 f0 f1 m0 m1 t0 t1 d0 d1 c0 c1 c2 c3 cs0 cs1 cs2 cs3 u0 u1 u2 u3 nb ex payload trailing) 22
      = some (u0 + 256 * u1 + 65536 * u2 + 16777216 * u3) := by
  have hl := mkEntry_length v0 v1 f0 f1 m0 m1 t0 t1 d0 d1 c0 c1 c2 c3 cs0 cs1 cs2 cs3 u0 u1 u2 u3 nb ex payload trailing
  unfold readU32
  rw [if_pos (by omega)]
  show some (u0 + 256 * u1 + 65536 * u2 + 16777216 * u3)
    = some (u0 + 256 * u1 + 65536 * u2 + 16777216 * u3)
  rfl

theorem mkEntry_fnl :
    readU16 (mkEntry v0 v1 f0 f1 m0 m1 t0 t1 d0 d1 c0 c1 c2 c3 cs0 cs1 cs2 cs3 u0 u1 u2 u3 nb ex payload trailing) 26
      = some nb.length := by
  have hl := mkEntry_length v0 v1 f0 f1 m0 m1 t0 t1 d0 d1 c0 c1 c2 c3 cs0 cs1 cs2 cs3 u0 u1 u2 u3 nb ex payload trailing
  unfold readU16
  rw [if_pos (by omega)]
  show some (nb.length % 256 + 256 * (nb.length / 256)) = some nb.length
  rw [Nat.mod_add_div]

theorem mkEntry_efl :
    readU16 (mkEntry v0 v1 f0 f1 m0 m1 t0 t1 d0 d1 c0 c1 c2 c3 cs0 cs1 cs2 cs3 u0 u1 u2 u3 nb ex payload trailing) 28
      = some ex.length := by
  have hl := mkEntry_length v0 v1 f0 f1 m0 m1 t0 t1 d0 d1 c0 c1 c2 c3 cs0 cs1 cs2 cs3 u0 u1 u2 u3 nb ex payload trailing
  unfold readU16
  rw [if_pos (by omega)]
  show some (ex.length % 256 + 256 * (ex.length / 256)) = some ex.length
  rw [Nat.mod_add_div]

theorem mkEntry_drop30 :
    (mkEntry v0 v1 f0 f1 m0 m1 t0 t1 d0 d1 c0 c1 c2 c3 cs0 cs1 cs2 cs3 u0 u1 u2 u3 nb ex payload trailing).drop 30
      = nb ++ (ex ++ (payload ++ trailing)) := rfl

theorem mkEntry_filename :
    bufSubstring (mkEntry v0 v1 f0 f1 m0 m1 t0 t1 d0 d1 c0 c1 c2 c3 cs0 cs1 cs2 cs3 u0 u1 u2 u3 nb ex payload trailing)
        (0 + 30) (0 + 30 + nb.length)
      = strOfChars (decodeUtf8 nb) := by
  unfold bufSubstring sliceBytes
  rw [show (0 + 30 + nb.length) - (0 + 30) = nb.length from by omega]
  rw [show (0:Nat) + 30 = 30 from rfl]
  rw [mkEntry_drop30]
  rw [show nb ++ (ex ++ (payload ++ trailing)) = nb ++ (ex ++ (payload ++ trailing)) from rfl]
  rw [show (nb ++ (ex ++ (payload ++ trailing))).take nb.length = nb from List.take_left nb (ex ++ (payload ++ trailing))]

theorem mkEntry_payload_slice :
    sliceBytes (mkEntry v0 v1 f0 f1 m0 m1 t0 t1 d0 d1 c0 c1 c2 c3 cs0 cs1 cs2 cs3 u0 u1 u2 u3 nb ex payload trailing)
        (0 + 30 + nb.length + ex.length) (0 + 30 + nb.length + ex.length + payload.length)
      = payload := by
  unfold sliceBytes
  rw [show (0 + 30 + nb.length + ex.length + payload.length) - (0 + 30 + nb.length + ex.length) = payload.length from by omega]
  rw [show 0 + 30 + nb.length + ex.length = 30 + (nb.length + ex.length) from by omega]
  rw [← List.drop_drop]
  rw [mkEntry_drop30]
  rw [show nb ++ (ex ++ (payload ++ trailing)) = (nb ++ ex) ++ (payload ++ trailing) from (List.append_assoc nb ex (payload ++ trailing)).symm]
  rw [show nb.length + ex.length = (nb ++ ex).length from (List.length_append nb ex).symm]
  rw [List.drop_left]
  rw [List.take_left]

theorem scanZip_mkEntry_step (fuel : Nat)
    (hcs : cs0 + 256 * cs1 + 65536 * cs2 + 16777216 * cs3 = payload.length) :
    scanZip inflate (fuel + 1)
        (mkEntry v0 v1 f0 f1 m0 m1 t0 t1 d0 d1 c0 c1 c2 c3 cs0 cs1 cs2 cs3 u0 u1 u2 u3 nb ex payload trailing) 0
      = (if strOfChars (decodeUtf8 nb) = ("xl/workbook.xml") then
          some (Except.ok (
            if m0 + 256 * m1 = 0 then parseSheetNames (strOfChars (decodeUtf8 payload))
            else if m0 + 256 * m1 = 8 then
              ((inflate payload).map (fun d => parseSheetNames (strOfChars (decodeUtf8 d)))).getD []
            else []))
        else scanZip inflate fuel
          (mkEntry v0 v1 f0 f1 m0 m1 t0 t1 d0 d1 c0 c1 c2 c3 cs0 cs1 cs2 cs3 u0 u1 u2 u3 nb ex payload trailing)
          (0 + 30 + nb.length + ex.length + payload.length)) := by
  have hl := mkEntry_length v0 v1 f0 f1 m0 m1 t0 t1 d0 d1 c0 c1 c2 c3 cs0 cs1 cs2 cs3 u0 u1 u2 u3 nb ex payload trailing
  have e0 := mkEntry_sig v0 v1 f0 f1 m0 m1 t0 t1 d0 d1 c0 c1 c2 c3 cs0 cs1 cs2 cs3 u0 u1 u2 u3 nb ex payload trailing
  have e1 := mkEntry_method v0 v1 f0 f1 m0 m1 t0 t1 d0 d1 c0 c1 c2 c3 cs0 cs1 cs2 cs3 u0 u1 u2 u3 nb ex payload trailing
  have e2 : readU32 (mkEntry v0 v1 f0 f1 m0 m1 t0 t1 d0 d1 c0 c1 c2 c3 cs0 cs1 cs2 cs3 u0 u1 u2 u3 nb ex payload trailing) 18
      = some payload.length := by
    rw [mkEntry_csize, hcs]
  have e3 := mkEntry_usize v0 v1 f0 f1 m0 m1 t0 t1 d0 d1 c0 c1 c2 c3 cs0 cs1 cs2 cs3 u0 u1 u2 u3 nb ex payload trailing
  have e4 := mkEntry_fnl v0 v1 f0 f1 m0 m1 t0 t1 d0 d1 c0 c1 c2 c3 cs0 cs1 cs2 cs3 u0 u1 u2 u3 nb ex payload trailing
  have e5 := mkEntry_efl v0 v1 f0 f1 m0 m1 t0 t1 d0 d1 c0 c1 c2 c3 cs0 cs1 cs2 cs3 u0 u1 u2 u3 nb ex payload trailing
  have e6 := mkEntry_filename v0 v1 f0 f1 m0 m1 t0 t1 d0 d1 c0 c1 c2 c3 cs0 cs1 cs2 cs3 u0 u1 u2 u3 nb ex payload trailing
  have e7 := mkEntry_payload_slice v0 v1 f0 f1 m0 m1 t0 t1 d0 d1 c0 c1 c2 c3 cs0 cs1 cs2 cs3 u0 u1 u2 u3 nb ex payload trailing
  have e8 : bufSubstring (mkEntry v0 v1 f0 f1 m0 m1 t0 t1 d0 d1 c0 c1 c2 c3 cs0 cs1 cs2 cs3 u0 u1 u2 u3 nb ex payload trailing)
      (0 + 30 + nb.length + ex.length) (0 + 30 + nb.length + ex.length + payload.length)
      = strOfChars (decodeUtf8 payload) := by
    unfold bufSubstring
    rw [e7]
  simp only [scanZip]
  rw [if_pos (show 0 < (mkEntry v0 v1 f0 f1 m0 m1 t0 t1 d0 d1 c0 c1 c2 c3 cs0 cs1 cs2 cs3 u0 u1 u2 u3 nb ex payload trailing).length - 4 from by omega)]
  rw [e0]
  simp only [e1, e2, e3, e4, e5]
  simp only [eq_self_iff_true, if_true]
  simp only [e6, e8, e7]
  by_cases hn : strOfChars (decodeUtf8 nb) = ("xl/workbook.xml")
  · rw [if_pos hn, if_pos hn]
    by_cases h0 : m0 + 256 * m1 = 0
    · rw [if_pos h0, if_pos h0]
    · rw [if_neg h0, if_neg h0]
      by_cases h8 : m0 + 256 * m1 = 8
      · rw [if_pos h8, if_pos h8]
        cases hi : inflate payload with
        | some d => simp
        | none => simp
      · rw [if_neg h8, if_neg h8]
  · rw [if_neg hn, if_neg hn]

theorem scanZip_done (fuel : Nat) (buf : List Nat) (off : Nat) (h1 : 1 ≤ fuel)
    (h2 : ¬ off < buf.length - 4) :
    scanZip inflate fuel buf off = some (Except.ok []) := by
  cases fuel with
  | zero => omega
  | succ fuel =>
    simp only [scanZip]
    rw [if_neg h2]

theorem scanZip_succ_shape (fuel : Nat) (buf : List Nat) (off : Nat) :
    (scanZip inflate (fuel + 1) buf off).isSome = true
      ∨ ∃ d, off + 30 ≤ d ∧ off < buf.length - 4
          ∧ scanZip inflate (fuel + 1) buf off = scanZip inflate fuel buf d := by
  simp only [scanZip]
  split
  · rename_i hlt
    split
    · left; rfl
    · split
      · split
        · split
          · split
            · left; rfl
            · split
              · left; split <;> rfl
              · left; rfl
          · right
            refine ⟨_, ?_, hlt, rfl⟩
            omega
        · left; rfl
      · left; rfl
  · left; rfl

theorem scanZip_fuel_sufficient :
    ∀ (fuel : Nat) (buf : List Nat) (off : Nat), buf.length - off < fuel →
      (scanZip inflate fuel buf off).isSome = true := by
  intro fuel
  induction fuel with
  | zero => intro buf off h; omega
  | succ fuel ih =>
    intro buf off h
    rcases scanZip_succ_shape inflate fuel buf off with hs | ⟨d, hd, hlt, heq⟩
    · exact hs
    · rw [heq]
      exact ih buf d (by omega)

end ZipLemmas

theorem listExcel_no_throw (inflate : List Nat → Option (List Nat)) (filePath : String)
    (buf : List Nat) : isErrorOutcome (listExcelSheets inflate filePath buf) = false := by
  unfold listExcelSheets
  by_cases hx : lowerStr (extname filePath) = (".xls")
  · rw [if_pos hx]
    rfl
  · rw [if_neg hx]
    cases hE : extractSheetNamesFromXlsx inflate buf with
    | error e => rfl
    | ok sheets =>
      cases sheets with
      | nil => rfl
      | cons s rest => rfl

theorem listExcel_of_extract_empty (inflate : List Nat → Option (List Nat)) (filePath : String)
    (buf : List Nat) (h : extractSheetNamesFromXlsx inflate buf = Except.ok []) :
    outcomeSheets (listExcelSheets inflate filePath buf) = []
      ∧ isErrorOutcome (listExcelSheets inflate filePath buf) = false := by
  unfold listExcelSheets
  by_cases hx : lowerStr (extname filePath) = (".xls")
  · rw [if_pos hx]
    exact ⟨rfl, rfl⟩
  · rw [if_neg hx, h]
    exact ⟨rfl, rfl⟩

theorem extract_empty_of_bad_start (inflate : List Nat → Option (List Nat)) (buf : List Nat)
    (h : buf.length ≤ 4 ∨ readU32 buf 0 ≠ some zipSig) :
    extractSheetNamesFromXlsx inflate buf = Except.ok [] := by
  unfold extractSheetNamesFromXlsx
  by_cases hc : 0 < buf.length - 4
  · have hv : readU32 buf 0 = some (buf.getD 0 0 + 256 * buf.getD (0 + 1) 0
        + 65536 * buf.getD (0 + 2) 0 + 16777216 * buf.getD (0 + 3) 0) := by
      unfold readU32
      rw [if_pos (by omega)]
    have hne : readU32 buf 0 ≠ some zipSig := by
      rcases h with h | h
      · omega
      · exact h
    simp only [scanZip]
    rw [if_pos hc]
    split
    · rename_i heq
      rw [heq] at hv
      exact Option.noConfusion hv
    · rename_i sig heq
      rw [if_neg (show ¬ sig = zipSig from fun he => hne (by rw [heq, he]))]
      rfl
  · rw [scanZip_done inflate (buf.length + 1) buf 0 (by omega) hc]
    rfl

theorem extract_skips_other_entry (inflate : List Nat → Option (List Nat))
    (v0 v1 f0 f1 m0 m1 t0 t1 d0 d1 c0 c1 c2 c3 cs0 cs1 cs2 cs3 u0 u1 u2 u3 : Nat)
    (nb ex payload : List Nat)
    (hcs : cs0 + 256 * cs1 + 65536 * cs2 + 16777216 * cs3 = payload.length)
    (hname : strOfChars (decodeUtf8 nb) ≠ ("xl/workbook.xml")) :
    extractSheetNamesFromXlsx inflate
        (mkEntry v0 v1 f0 f1 m0 m1 t0 t1 d0 d1 c0 c1 c2 c3 cs0 cs1 cs2 cs3 u0 u1 u2 u3 nb ex payload [])
      = Except.ok [] := by
  have hlen := mkEntry_length v0 v1 f0 f1 m0 m1 t0 t1 d0 d1 c0 c1 c2 c3 cs0 cs1 cs2 cs3 u0 u1 u2 u3
    nb ex payload []
  unfold extractSheetNamesFromXlsx
  rw [scanZip_mkEntry_step inflate v0 v1 f0 f1 m0 m1 t0 t1 d0 d1 c0 c1 c2 c3 cs0 cs1 cs2 cs3
    u0 u1 u2 u3 nb ex payload [] _ hcs]
  rw [if_neg hname]
  rw [scanZip_done inflate _ _ _ (by omega) (by simp at hlen; omega)]
  rfl

theorem extract_workbook_entry (inflate : List Nat → Option (List Nat))
    (v0 v1 f0 f1 m0 m1 t0 t1 d0 d1 c0 c1 c2 c3 cs0 cs1 cs2 cs3 u0 u1 u2 u3 : Nat)
    (ex payload trailing : List Nat)
    (hcs : cs0 + 256 * cs1 + 65536 * cs2 + 16777216 * cs3 = payload.length) :
    extractSheetNamesFromXlsx inflate
        (mkEntry v0 v1 f0 f1 m0 m1 t0 t1 d0 d1 c0 c1 c2 c3 cs0 cs1 cs2 cs3 u0 u1 u2 u3
          workbookEntryName ex payload trailing)
      = Except.ok (
          if m0 + 256 * m1 = 0 then parseSheetNames (strOfChars (decodeUtf8 payload))
          else if m0 + 256 * m1 = 8 then
            ((inflate payload).map (fun d => parseSheetNames (strOfChars (decodeUtf8 d)))).getD []
          else []) := by
  unfold extractSheetNamesFromXlsx
  rw [scanZip_mkEntry_step inflate v0 v1 f0 f1 m0 m1 t0 t1 d0 d1 c0 c1 c2 c3 cs0 cs1 cs2 cs3
    u0 u1 u2 u3 workbookEntryName ex payload trailing _ hcs]
  rw [if_pos (show strOfChars (decodeUtf8 workbookEntryName) = ("xl/workbook.xml") from by decide)]
  rfl


/-- C1: `validateSqlQuery` fails unless the trimmed, upper-cased statement
starts with `SELECT`, and fails whenever any blocklisted keyword (`INSERT`,
`UPDATE`, `DELETE`, `DROP`, `CREATE`, `ALTER`, `TRUNCATE`, `REPLACE`,
`ATTACH`, `DETACH`, `PRAGMA`) occurs as a whole word, case-insensitively,
anywhere in the statement; it rejects `DROP TABLE x` and
`SELECT * FROM t; DELETE FROM t` and accepts `SELECT * FROM t`. -/
theorem c1_validateSqlQuery_guard :
    (∀ sql : String, (("SELECT").data.isPrefixOf (upStr (trimStr sql)).data) = false →
        validateSqlQuery sql = Except.error ("Only SELECT queries are allowed"))
    ∧ (∀ sql kw : String, kw ∈ dangerousKeywords → containsWholeWordCI kw.data sql.data = true →
        ∃ e, validateSqlQuery sql = Except.error e)
    ∧ validateSqlQuery ("DROP TABLE x") = Except.error ("Only SELECT queries are allowed")
    ∧ validateSqlQuery ("SELECT * FROM t; DELETE FROM t")
        = Except.error (("Query contains forbidden keyword: ") ++ ("DELETE"))
    ∧ validateSqlQuery ("SELECT * FROM t") = Except.ok () := by
  refine ⟨?_, ?_, by rfl, by rfl, by rfl⟩
  · intro sql h
    unfold validateSqlQuery
    rw [if_pos (by simp [h])]
  · intro sql kw hmem hww
    unfold validateSqlQuery
    by_cases hsel : (("SELECT").data.isPrefixOf (upStr (trimStr sql)).data) = true
    · rw [if_neg (not_not_intro hsel)]
      have hfind : (dangerousKeywords.find? (fun k => containsWholeWordCI k.data sql.data)).isSome :=
        List.find?_isSome.mpr ⟨kw, hmem, hww⟩
      rcases Option.isSome_iff_exists.mp hfind with ⟨k, hk⟩
      rw [hk]
      exact ⟨_, rfl⟩
    · rw [if_pos hsel]
      exact ⟨_, rfl⟩

/-- Witness for C1 at concrete inputs: a non-SELECT statement is rejected
with the SELECT-only error, and a SELECT statement containing `DROP` as a
whole word is rejected. -/
theorem c1_witness :
    validateSqlQuery ("UPDATE t SET x = 1") = Except.error ("Only SELECT queries are allowed")
    ∧ (∃ e, validateSqlQuery ("SELECT a FROM t WHERE b IN (SELECT c FROM u); DROP TABLE t")
        = Except.error e) :=
  ⟨c1_validateSqlQuery_guard.1 ("UPDATE t SET x = 1") (by decide),
   c1_validateSqlQuery_guard.2.1 ("SELECT a FROM t WHERE b IN (SELECT c FROM u); DROP TABLE t")
     ("DROP") (by decide) (by decide)⟩

/-- C2 counterexample: on the ad-hoc relational path with `limit = 0` and an
empty engine result, the canonical empty `ParsedData` has
`truncated = false` although `rows.length >= limit` holds. -/
theorem c2_counterexample :
    ¬ ((querySqliteAssemble ([] : List JSRow) 0).truncated = true ↔
        (querySqliteAssemble ([] : List JSRow) 0).rows.length ≥ 0) := by
  decide

/-- C2 as amended: with a true count available, `previewSqliteTable` and
`parseDuckDBFile` satisfy `truncated = (offset + rows.length < totalRows)`;
the ad-hoc relational path satisfies `truncated = (rows.length >= limit)`
whenever the result is nonempty or `limit >= 1` (an empty result always
yields `truncated = false`). -/
theorem c2_truncated_amended :
    (∀ (α : Type) (db : SqliteDb α) (tableName : String) (limit offset : Nat)
        (pd : ParsedData α),
        previewSqliteTable db tableName limit offset = Except.ok pd →
        pd.truncated = decide (offset + pd.rows.length < pd.totalRows))
    ∧ (∀ (describe : List (String × String)) (fileRows : List JSRow) (limit offset : Nat),
        (parseDuckDBFile describe fileRows limit offset).truncated
          = decide (offset + (parseDuckDBFile describe fileRows limit offset).rows.length
              < (parseDuckDBFile describe fileRows limit offset).totalRows))
    ∧ (∀ (engineRows : List JSRow) (limit : Nat), engineRows ≠ [] ∨ 1 ≤ limit →
        (querySqliteAssemble engineRows limit).truncated
          = decide ((querySqliteAssemble engineRows limit).rows.length ≥ limit)) := by
  refine ⟨?_, ?_, ?_⟩
  · intro α db tableName limit offset pd h
    unfold previewSqliteTable at h
    cases hf : findTable db tableName with
    | none => rw [hf] at h; exact Except.noConfusion h
    | some t =>
      rw [hf] at h
      cases h
      simp only [List.length_take, List.length_drop]
      rw [decide_eq_decide]
      omega
  · intro describe fileRows limit offset
    rfl
  · intro engineRows limit h
    cases engineRows with
    | nil =>
      have hlim : 1 ≤ limit := by
        rcases h with h | h
        · exact absurd rfl h
        · exact h
      simp [querySqliteAssemble]
      omega
    | cons first rest => rfl

/-- Witness for C2: the preview clause at a five-row table with
`limit = 2, offset = 2`, and the ad-hoc clause at a one-row result. -/
theorem c2_witness :
    ({ columns := [], rows := [(), ()], totalRows := 5, truncated := true } : ParsedData Unit).truncated
        = decide (2 + ({ columns := [], rows := [(), ()], totalRows := 5, truncated := true } : ParsedData Unit).rows.length
            < ({ columns := [], rows := [(), ()], totalRows := 5, truncated := true } : ParsedData Unit).totalRows)
    ∧ (querySqliteAssemble [[(("a"), JSValue.num 1)]] 1).truncated
        = decide ((querySqliteAssemble [[(("a"), JSValue.num 1)]] 1).rows.length ≥ 1) :=
  ⟨c2_truncated_amended.1 Unit
      [{ name := ("t"), cols := [], rows := [(), (), (), (), ()] }] ("t") 2 2
      { columns := [], rows := [(), ()], totalRows := 5, truncated := true } (by rfl),
   c2_truncated_amended.2.2 [[(("a"), JSValue.num 1)]] 1 (Or.inr (by decide))⟩

/-- C3: a table name matching no row of the catalog makes
`validateTableName` (a parametrized lookup, the name compared as data) fail
with the not-found error, and makes `previewSqliteTable` fail the same way
before any SQL text is built from the name; in particular the name
`a"; DROP TABLE x; --` is rejected whenever no table of exactly that name
exists. -/
theorem c3_validateTableName_parametrized :
    (∀ (α : Type) (db : SqliteDb α) (tableName : String), findTable db tableName = none →
        validateTableName db tableName = Except.error (("Table not found: ") ++ tableName))
    ∧ (∀ (α : Type) (db : SqliteDb α) (tableName : String) (limit offset : Nat),
        findTable db tableName = none →
        previewSqliteTable db tableName limit offset
          = Except.error (("Table not found: ") ++ tableName))
    ∧ (∀ (α : Type) (db : SqliteDb α), findTable db ("a\"; DROP TABLE x; --") = none →
        validateTableName db ("a\"; DROP TABLE x; --")
          = Except.error (("Table not found: ") ++ ("a\"; DROP TABLE x; --"))) := by
  refine ⟨?_, ?_, ?_⟩
  · intro α db tableName h
    unfold validateTableName
    rw [h]
  · intro α db tableName limit offset h
    unfold previewSqliteTable
    rw [h]
  · intro α db h
    unfold validateTableName
    rw [h]

/-- Witness for C3: the injection-shaped name is rejected against the empty
catalog. -/
theorem c3_witness :
    validateTableName ([] : SqliteDb Unit) ("a\"; DROP TABLE x; --")
      = Except.error (("Table not found: ") ++ ("a\"; DROP TABLE x; --")) :=
  c3_validateTableName_parametrized.2.2 Unit [] rfl

/-- C4 counterexample: `SELECT unlimited FROM t` begins with `SELECT` and
has no `LIMIT` clause (no whole-word `LIMIT`), yet `ensureLimit` leaves it
unchanged, because the code tests for the substring `LIMIT` and
`UNLIMITED` contains it. -/
theorem c4_counterexample :
    containsWholeWordCI (("LIMIT").data) (("SELECT unlimited FROM t").data) = false
    ∧ (("SELECT").data.isPrefixOf (upStr (trimStr ("SELECT unlimited FROM t"))).data) = true
    ∧ ¬ ensureLimit ("SELECT unlimited FROM t") 100 = ("SELECT unlimited FROM t LIMIT 100")
    ∧ ensureLimit ("SELECT unlimited FROM t") 100 = ("SELECT unlimited FROM t") := by
  refine ⟨by decide, by decide, by decide, by decide⟩

/-- C4 as amended: `ensureLimit` appends `LIMIT <defaultLimit>` exactly when
the upper-cased trimmed statement does not contain the substring `LIMIT`
and starts with `SELECT`, and otherwise returns the trimmed statement
unchanged; `querySqlite` executes the `ensureLimit`-adjusted text; the two
concrete examples of the claim hold. -/
theorem c4_ensureLimit_amended :
    (∀ (sql : String) (limit : Nat),
        listHasSub (("LIMIT").data) (upStr (trimStr sql)).data = false →
        (("SELECT").data.isPrefixOf (upStr (trimStr sql)).data) = true →
        ensureLimit sql limit = trimStr sql ++ (" LIMIT ") ++ toString limit)
    ∧ (∀ (sql : String) (limit : Nat),
        listHasSub (("LIMIT").data) (upStr (trimStr sql)).data = true →
        ensureLimit sql limit = trimStr sql)
    ∧ (∀ (engine : String → List JSRow) (sql : String) (limit : Nat),
        validateSqlQuery sql = Except.ok () →
        querySqlite engine sql limit
          = Except.ok (querySqliteAssemble (engine (ensureLimit sql limit)) limit))
    ∧ ensureLimit ("SELECT * FROM t") 100 = ("SELECT * FROM t LIMIT 100")
    ∧ ensureLimit ("SELECT * FROM t LIMIT 5") 100 = ("SELECT * FROM t LIMIT 5") := by
  refine ⟨?_, ?_, ?_, by decide, by decide⟩
  · intro sql limit h1 h2
    unfold ensureLimit
    rw [if_pos (by simp [h1, h2])]
  · intro sql limit h
    unfold ensureLimit
    rw [if_neg (by simp [h])]
  · intro engine sql limit h
    unfold querySqlite
    rw [h]

/-- Witness for C4 at concrete inputs. -/
theorem c4_witness :
    ensureLimit ("SELECT a FROM u") 7 = trimStr ("SELECT a FROM u") ++ (" LIMIT ") ++ toString 7
    ∧ ensureLimit ("SELECT a FROM u LIMIT 3") 7 = trimStr ("SELECT a FROM u LIMIT 3")
    ∧ querySqlite (fun _ => []) ("SELECT a FROM u") 7
        = Except.ok (querySqliteAssemble ((fun _ => ([] : List JSRow)) (ensureLimit ("SELECT a FROM u") 7)) 7) :=
  ⟨c4_ensureLimit_amended.1 ("SELECT a FROM u") 7 (by decide) (by decide),
   c4_ensureLimit_amended.2.1 ("SELECT a FROM u LIMIT 3") 7 (by decide),
   c4_ensureLimit_amended.2.2.1 (fun _ => []) ("SELECT a FROM u") 7 (by rfl)⟩

/-- C5 counterexample: on the analytics-engine path `mapDuckDBType` maps the
unmatched type `UUID` to `string`, not to `mixed`. -/
theorem c5_counterexample :
    mapDuckDBType ("UUID") = ColumnType.string
    ∧ ¬ mapDuckDBType ("UUID") = ColumnType.mixed := by
  refine ⟨by decide, by decide⟩

/-- C5 as amended: `mapSqliteType` maps `BIGINT` to number, `VARCHAR(255)`
to string and every keyword-free type string (such as `UUID`) to `mixed`;
`mapDuckDBType` maps `BIGINT` to number and `VARCHAR(255)` to string but
maps every keyword-free type string to `string`. -/
theorem c5_mapNativeType_amended :
    mapSqliteType (some ("BIGINT")) = ColumnType.number
    ∧ mapSqliteType (some ("VARCHAR(255)")) = ColumnType.string
    ∧ mapSqliteType (some ("UUID")) = ColumnType.mixed
    ∧ (∀ s : String,
        listHasSub (("INT").data) (upStr s).data = false →
        listHasSub (("REAL").data) (upStr s).data = false →
        listHasSub (("FLOAT").data) (upStr s).data = false →
        listHasSub (("DOUBLE").data) (upStr s).data = false →
        listHasSub (("NUMERIC").data) (upStr s).data = false →
        listHasSub (("DECIMAL").data) (upStr s).data = false →
        listHasSub (("BOOL").data) (upStr s).data = false →
        listHasSub (("DATE").data) (upStr s).data = false →
        listHasSub (("TIME").data) (upStr s).data = false →
        listHasSub (("TIMESTAMP").data) (upStr s).data = false →
        listHasSub (("TEXT").data) (upStr s).data = false →
        listHasSub (("CHAR").data) (upStr s).data = false →
        listHasSub (("CLOB").data) (upStr s).data = false →
        listHasSub (("VARCHAR").data) (upStr s).data = false →
        listHasSub (("BLOB").data) (upStr s).data = false →
        mapSqliteType (some s) = ColumnType.mixed)
    ∧ mapDuckDBType ("BIGINT") = ColumnType.number
    ∧ mapDuckDBType ("VARCHAR(255)") = ColumnType.string
    ∧ (∀ s : String,
        listHasSub (("INT").data) (upStr s).data = false →
        listHasSub (("BIGINT").data) (upStr s).data = false →
        listHasSub (("SMALLINT").data) (upStr s).data = false →
        listHasSub (("TINYINT").data) (upStr s).data = false →
        listHasSub (("HUGEINT").data) (upStr s).data = false →
        listHasSub (("FLOAT").data) (upStr s).data = false →
        listHasSub (("DOUBLE").data) (upStr s).data = false →
        listHasSub (("DECIMAL").data) (upStr s).data = false →
        listHasSub (("REAL").data) (upStr s).data = false →
        listHasSub (("BOOL").data) (upStr s).data = false →
        listHasSub (("DATE").data) (upStr s).data = false →
        listHasSub (("TIME").data) (upStr s).data = false →
        listHasSub (("TIMESTAMP").data) (upStr s).data = false →
        mapDuckDBType s = ColumnType.string) := by
  refine ⟨by decide, by decide, by decide, ?_, by decide, by decide, ?_⟩
  · intro s h1 h2 h3 h4 h5 h6 h7 h8 h9 h10 h11 h12 h13 h14 h15
    unfold mapSqliteType
    by_cases he : s = ("")
    · simp [he]
    · simp [he, h1, h2, h3, h4, h5, h6, h7, h8, h9, h10, h11, h12, h13, h14, h15]
  · intro s h1 h2 h3 h4 h5 h6 h7 h8 h9 h10 h11 h12 h13
    unfold mapDuckDBType
    simp [h1, h2, h3, h4, h5, h6, h7, h8, h9, h10, h11, h12, h13]

/-- Witness for C5: both unmatched-type clauses applied at `UUID`. -/
theorem c5_witness :
    mapSqliteType (some ("UUID")) = ColumnType.mixed
    ∧ mapDuckDBType ("UUID") = ColumnType.string :=
  ⟨c5_mapNativeType_amended.2.2.2.1 ("UUID") (by decide) (by decide) (by decide) (by decide)
      (by decide) (by decide) (by decide) (by decide) (by decide) (by decide) (by decide)
      (by decide) (by decide) (by decide) (by decide),
   c5_mapNativeType_amended.2.2.2.2.2.2 ("UUID") (by decide) (by decide) (by decide) (by decide)
      (by decide) (by decide) (by decide) (by decide) (by decide) (by decide) (by decide)
      (by decide) (by decide)⟩

/-- C6: for every byte buffer that is a single-entry ZIP whose stored entry
is `xl/workbook.xml` with populated header size fields and the two-sheet
workbook payload (`name` attributes in different positions), the sheet
extractor returns exactly `["A", "B"]` in document order. -/
theorem c6_synthetic_zip_sheets :
    ∀ (inflate : List Nat → Option (List Nat))
      (v0 v1 f0 f1 t0 t1 d0 d1 c0 c1 c2 c3 u0 u1 u2 u3 : Nat) (ex trailing : List Nat),
      ex.length < 65536 →
      isByteList (c6Zip v0 v1 f0 f1 t0 t1 d0 d1 c0 c1 c2 c3 u0 u1 u2 u3 ex trailing) = true →
      extractSheetNamesFromXlsx inflate (c6Zip v0 v1 f0 f1 t0 t1 d0 d1 c0 c1 c2 c3 u0 u1 u2 u3 ex trailing)
        = Except.ok [("A"), ("B")] := by
  intro inflate v0 v1 f0 f1 t0 t1 d0 d1 c0 c1 c2 c3 u0 u1 u2 u3 ex trailing hex hbytes
  have hcs : (c6Payload.length % 256) + 256 * (c6Payload.length / 256) + 65536 * 0 + 16777216 * 0
      = c6Payload.length := by
    have := Nat.mod_add_div c6Payload.length 256
    omega
  unfold extractSheetNamesFromXlsx c6Zip
  rw [scanZip_mkEntry_step inflate v0 v1 f0 f1 0 0 t0 t1 d0 d1 c0 c1 c2 c3
    (c6Payload.length % 256) (c6Payload.length / 256) 0 0 u0 u1 u2 u3
    workbookEntryName ex c6Payload trailing _ hcs]
  rw [if_pos (show strOfChars (decodeUtf8 workbookEntryName) = ("xl/workbook.xml") from by decide)]
  rw [if_pos (show 0 + 256 * 0 = 0 from rfl)]
  show Except.ok (parseSheetNames (strOfChars (decodeUtf8 c6Payload))) = Except.ok [("A"), ("B")]
  have hp : parseSheetNames (strOfChars (decodeUtf8 c6Payload)) = [("A"), ("B")] := by decide
  rw [hp]

/-- Witness for C6 at one fully concrete buffer. -/
theorem c6_witness :
    extractSheetNamesFromXlsx (fun _ => none) (c6Zip 20 0 0 0 0 0 0 0 1 2 3 4 0 0 0 0 [] [])
      = Except.ok [("A"), ("B")] :=
  c6_synthetic_zip_sheets (fun _ => none) 20 0 0 0 0 0 0 0 1 2 3 4 0 0 0 0 [] []
    (by decide) (by decide)

/-- C7: `listExcelSheets` never throws (every outcome is a normal return),
and yields the empty sheet list for: bytes that are not a ZIP (too short or
wrong leading signature), a single-entry ZIP without `xl/workbook.xml`, a
deflated workbook payload whose decompression fails, a workbook entry with
an unsupported compression method, and a stored workbook whose XML yields
no sheet names. -/
theorem c7_listExcelSheets_degrade :
    (∀ (inflate : List Nat → Option (List Nat)) (filePath : String) (buf : List Nat),
        isErrorOutcome (listExcelSheets inflate filePath buf) = false)
    ∧ (∀ (inflate : List Nat → Option (List Nat)) (filePath : String) (buf : List Nat),
        buf.length ≤ 4 ∨ readU32 buf 0 ≠ some zipSig →
        outcomeSheets (listExcelSheets inflate filePath buf) = [])
    ∧ (∀ (inflate : List Nat → Option (List Nat)) (filePath : String)
        (v0 v1 f0 f1 m0 m1 t0 t1 d0 d1 c0 c1 c2 c3 cs0 cs1 cs2 cs3 u0 u1 u2 u3 : Nat)
        (nb ex payload : List Nat),
        cs0 + 256 * cs1 + 65536 * cs2 + 16777216 * cs3 = payload.length →
        strOfChars (decodeUtf8 nb) ≠ ("xl/workbook.xml") →
        outcomeSheets (listExcelSheets inflate filePath
          (mkEntry v0 v1 f0 f1 m0 m1 t0 t1 d0 d1 c0 c1 c2 c3 cs0 cs1 cs2 cs3 u0 u1 u2 u3
            nb ex payload [])) = [])
    ∧ (∀ (inflate : List Nat → Option (List Nat)) (filePath : String)
        (v0 v1 f0 f1 t0 t1 d0 d1 c0 c1 c2 c3 cs0 cs1 cs2 cs3 u0 u1 u2 u3 : Nat)
        (ex payload trailing : List Nat),
        cs0 + 256 * cs1 + 65536 * cs2 + 16777216 * cs3 = payload.length →
        inflate payload = none →
        outcomeSheets (listExcelSheets inflate filePath
          (mkEntry v0 v1 f0 f1 8 0 t0 t1 d0 d1 c0 c1 c2 c3 cs0 cs1 cs2 cs3 u0 u1 u2 u3
            workbookEntryName ex payload trailing)) = [])
    ∧ (∀ (inflate : List Nat → Option (List Nat)) (filePath : String)
        (v0 v1 f0 f1 m0 m1 t0 t1 d0 d1 c0 c1 c2 c3 cs0 cs1 cs2 cs3 u0 u1 u2 u3 : Nat)
        (ex payload trailing : List Nat),
        cs0 + 256 * cs1 + 65536 * cs2 + 16777216 * cs3 = payload.length →
        m0 + 256 * m1 ≠ 0 → m0 + 256 * m1 ≠ 8 →
        outcomeSheets (listExcelSheets inflate filePath
          (mkEntry v0 v1 f0 f1 m0 m1 t0 t1 d0 d1 c0 c1 c2 c3 cs0 cs1 cs2 cs3 u0 u1 u2 u3
            workbookEntryName ex payload trailing)) = [])
    ∧ (∀ (inflate : List Nat → Option (List Nat)) (filePath : String)
        (v0 v1 f0 f1 t0 t1 d0 d1 c0 c1 c2 c3 cs0 cs1 cs2 cs3 u0 u1 u2 u3 : Nat)
        (ex payload trailing : List Nat),
        cs0 + 256 * cs1 + 65536 * cs2 + 16777216 * cs3 = payload.length →
        parseSheetNames (strOfChars (decodeUtf8 payload)) = [] →
        outcomeSheets (listExcelSheets inflate filePath
          (mkEntry v0 v1 f0 f1 0 0 t0 t1 d0 d1 c0 c1 c2 c3 cs0 cs1 cs2 cs3 u0 u1 u2 u3
            workbookEntryName ex payload trailing)) = []) := by
  refine ⟨listExcel_no_throw, ?_, ?_, ?_, ?_, ?_⟩
  · intro inflate filePath buf h
    exact (listExcel_of_extract_empty inflate filePath buf
      (extract_empty_of_bad_start inflate buf h)).1
  · intro inflate filePath v0 v1 f0 f1 m0 m1 t0 t1 d0 d1 c0 c1 c2 c3 cs0 cs1 cs2 cs3
      u0 u1 u2 u3 nb ex payload hcs hname
    exact (listExcel_of_extract_empty inflate filePath _
      (extract_skips_other_entry inflate v0 v1 f0 f1 m0 m1 t0 t1 d0 d1 c0 c1 c2 c3
        cs0 cs1 cs2 cs3 u0 u1 u2 u3 nb ex payload hcs hname)).1
  · intro inflate filePath v0 v1 f0 f1 t0 t1 d0 d1 c0 c1 c2 c3 cs0 cs1 cs2 cs3
      u0 u1 u2 u3 ex payload trailing hcs hinf
    have hE : extractSheetNamesFromXlsx inflate
        (mkEntry v0 v1 f0 f1 8 0 t0 t1 d0 d1 c0 c1 c2 c3 cs0 cs1 cs2 cs3 u0 u1 u2 u3
          workbookEntryName ex payload trailing) = Except.ok [] := by
      rw [extract_workbook_entry inflate v0 v1 f0 f1 8 0 t0 t1 d0 d1 c0 c1 c2 c3
        cs0 cs1 cs2 cs3 u0 u1 u2 u3 ex payload trailing hcs]
      rw [if_neg (by decide), if_pos (by decide), hinf]
      rfl
    exact (listExcel_of_extract_empty inflate filePath _ hE).1
  · intro inflate filePath v0 v1 f0 f1 m0 m1 t0 t1 d0 d1 c0 c1 c2 c3 cs0 cs1 cs2 cs3
      u0 u1 u2 u3 ex payload trailing hcs h0 h8
    have hE : extractSheetNamesFromXlsx inflate
        (mkEntry v0 v1 f0 f1 m0 m1 t0 t1 d0 d1 c0 c1 c2 c3 cs0 cs1 cs2 cs3 u0 u1 u2 u3
          workbookEntryName ex payload trailing) = Except.ok [] := by
      rw [extract_workbook_entry inflate v0 v1 f0 f1 m0 m1 t0 t1 d0 d1 c0 c1 c2 c3
        cs0 cs1 cs2 cs3 u0 u1 u2 u3 ex payload trailing hcs]
      rw [if_neg h0, if_neg h8]
    exact (listExcel_of_extract_empty inflate filePath _ hE).1
  · intro inflate filePath v0 v1 f0 f1 t0 t1 d0 d1 c0 c1 c2 c3 cs0 cs1 cs2 cs3
      u0 u1 u2 u3 ex payload trailing hcs htags
    have hE : extractSheetNamesFromXlsx inflate
        (mkEntry v0 v1 f0 f1 0 0 t0 t1 d0 d1 c0 c1 c2 c3 cs0 cs1 cs2 cs3 u0 u1 u2 u3
          workbookEntryName ex payload trailing) = Except.ok [] := by
      rw [extract_workbook_entry inflate v0 v1 f0 f1 0 0 t0 t1 d0 d1 c0 c1 c2 c3
        cs0 cs1 cs2 cs3 u0 u1 u2 u3 ex payload trailing hcs]
      rw [if_pos (by decide), htags]
    exact (listExcel_of_extract_empty inflate filePath _ hE).1

/-- Witness for C7: all five degradation clauses at concrete buffers. -/
theorem c7_witness :
    outcomeSheets (listExcelSheets (fun _ => none) ("b.xlsx") [9, 9, 9, 9, 9, 9]) = []
    ∧ outcomeSheets (listExcelSheets (fun _ => none) ("b.xlsx")
        (mkEntry 0 0 0 0 0 0 0 0 0 0 0 0 0 0 1 0 0 0 0 0 0 0 (asciiBytes ("a")) [] [7] [])) = []
    ∧ outcomeSheets (listExcelSheets (fun _ => none) ("b.xlsx")
        (mkEntry 0 0 0 0 8 0 0 0 0 0 0 0 0 0 0 0 0 0 0 0 0 0 workbookEntryName [] [] [])) = []
    ∧ outcomeSheets (listExcelSheets (fun _ => none) ("b.xlsx")
        (mkEntry 0 0 0 0 9 0 0 0 0 0 0 0 0 0 0 0 0 0 0 0 0 0 workbookEntryName [] [] [])) = []
    ∧ outcomeSheets (listExcelSheets (fun _ => none) ("b.xlsx")
        (mkEntry 0 0 0 0 0 0 0 0 0 0 0 0 0 0 0 0 0 0 0 0 0 0 workbookEntryName [] [] [])) = [] :=
  ⟨c7_listExcelSheets_degrade.2.1 (fun _ => none) ("b.xlsx") [9, 9, 9, 9, 9, 9]
      (Or.inr (by decide)),
   c7_listExcelSheets_degrade.2.2.1 (fun _ => none) ("b.xlsx") 0 0 0 0 0 0 0 0 0 0 0 0 0 0
      1 0 0 0 0 0 0 0 (asciiBytes ("a")) [] [7] (by decide) (by decide),
   c7_listExcelSheets_degrade.2.2.2.1 (fun _ => none) ("b.xlsx") 0 0 0 0 0 0 0 0 0 0 0 0
      0 0 0 0 0 0 0 0 [] [] [] (by decide) (by rfl),
   c7_listExcelSheets_degrade.2.2.2.2.1 (fun _ => none) ("b.xlsx") 0 0 0 0 9 0 0 0 0 0 0 0
      0 0 0 0 0 0 0 0 0 0 [] [] [] (by decide) (by decide) (by decide),
   c7_listExcelSheets_degrade.2.2.2.2.2 (fun _ => none) ("b.xlsx") 0 0 0 0 0 0 0 0 0 0 0 0
      0 0 0 0 0 0 0 0 [] [] [] (by decide) (by decide)⟩
/-- C8 counterexample: for a `.xls` path `listExcelSheets` does not reject
with an unsupported-format error; it returns normally with the dedicated
warning and the empty sheet list. -/
theorem c8_counterexample :
    isErrorOutcome (listExcelSheets (fun _ => none) ("report.xls") []) = false
    ∧ listExcelSheets (fun _ => none) ("report.xls") []
        = SheetListOutcome.ok [xlsUnsupportedWarn] [] := by
  refine ⟨by rfl, by rfl⟩

/-- C8 as amended: every path with (lower-cased) extension `.xls` is
detected before any ZIP parsing (the result does not depend on the buffer
or the decompressor) and answered immediately with the dedicated
unsupported-format warning and the empty list, never an error. -/
theorem c8_xls_early_return :
    ∀ (inflate : List Nat → Option (List Nat)) (filePath : String) (buf : List Nat),
      lowerStr (extname filePath) = (".xls") →
      listExcelSheets inflate filePath buf = SheetListOutcome.ok [xlsUnsupportedWarn] [] := by
  intro inflate filePath buf h
  unfold listExcelSheets
  rw [if_pos h]

/-- Witness for C8 at a concrete `.XLS` path with a well-formed buffer. -/
theorem c8_witness :
    listExcelSheets (fun _ => none) ("data/Report.XLS") (c6Zip 0 0 0 0 0 0 0 0 0 0 0 0 0 0 0 0 [] [])
      = SheetListOutcome.ok [xlsUnsupportedWarn] [] :=
  c8_xls_early_return (fun _ => none) ("data/Report.XLS")
    (c6Zip 0 0 0 0 0 0 0 0 0 0 0 0 0 0 0 0 [] []) (by decide)

/-- C9: `processRow` preserves the key list exactly and maps each entry
through `coerceValue`, which converts bigints to numbers, `Date` values to
their ISO-8601 strings, `Buffer`s to their UTF-8 decodings, and leaves
every other value unchanged. -/
theorem c9_processRow_frame :
    (∀ row : JSRow, (processRow row).map Prod.fst = row.map Prod.fst)
    ∧ (∀ (row : JSRow) (k : String) (v : JSValue), (k, v) ∈ row →
        (k, coerceValue v) ∈ processRow row)
    ∧ (∀ i : Int, coerceValue (JSValue.bigint i) = JSValue.num i)
    ∧ (∀ iso : String, coerceValue (JSValue.date iso) = JSValue.str iso)
    ∧ (∀ bs : List Nat, coerceValue (JSValue.buffer bs) = JSValue.str (strOfChars (decodeUtf8 bs)))
    ∧ (∀ v : JSValue, (∀ i, v ≠ JSValue.bigint i) → (∀ s, v ≠ JSValue.date s) →
        (∀ bs, v ≠ JSValue.buffer bs) → coerceValue v = v) := by
  refine ⟨?_, ?_, fun i => rfl, fun iso => rfl, fun bs => rfl, ?_⟩
  · intro row
    induction row with
    | nil => rfl
    | cons kv rest ih => simp [processRow] at ih ⊢
  · intro row k v hmem
    have : (k, coerceValue v) = (fun kv : String × JSValue => (kv.1, coerceValue kv.2)) (k, v) := rfl
    rw [this]
    exact List.mem_map_of_mem _ hmem
  · intro v h1 h2 h3
    cases v with
    | bigint i => exact absurd rfl (h1 i)
    | date s => exact absurd rfl (h2 s)
    | buffer bs => exact absurd rfl (h3 bs)
    | num x => rfl
    | str s => rfl
    | bool b => rfl
    | null => rfl

/-- Witness for C9 at a concrete row and a concrete untouched value. -/
theorem c9_witness :
    (processRow [(("a"), JSValue.num 1), (("b"), JSValue.bigint 2)]).map Prod.fst
        = [(("a"), JSValue.num 1), (("b"), JSValue.bigint 2)].map Prod.fst
    ∧ coerceValue (JSValue.str ("x")) = JSValue.str ("x") :=
  ⟨c9_processRow_frame.1 [(("a"), JSValue.num 1), (("b"), JSValue.bigint 2)],
   c9_processRow_frame.2.2.2.2.2 (JSValue.str ("x"))
     (fun _ h => JSValue.noConfusion h) (fun _ h => JSValue.noConfusion h)
     (fun _ h => JSValue.noConfusion h)⟩

/-- C10: the ZIP header scan terminates on every finite buffer: one
iteration either produces a result or recurses at an offset at least 30
bytes further on, `buf.length - off` bounds the fuel needed, and the
top-level extractor consumes its scan result (its fallback default is
never taken). -/
theorem c10_scan_terminates :
    (∀ (inflate : List Nat → Option (List Nat)) (fuel : Nat) (buf : List Nat) (off : Nat),
        (scanZip inflate (fuel + 1) buf off).isSome = true
          ∨ ∃ d, off + 30 ≤ d ∧ off < buf.length - 4
              ∧ scanZip inflate (fuel + 1) buf off = scanZip inflate fuel buf d)
    ∧ (∀ (inflate : List Nat → Option (List Nat)) (fuel : Nat) (buf : List Nat) (off : Nat),
        buf.length - off < fuel → (scanZip inflate fuel buf off).isSome = true)
    ∧ (∀ (inflate : List Nat → Option (List Nat)) (buf : List Nat),
        ∃ r, scanZip inflate (buf.length + 1) buf 0 = some r
          ∧ extractSheetNamesFromXlsx inflate buf = r) := by
  refine ⟨fun inflate => scanZip_succ_shape inflate, fun inflate => scanZip_fuel_sufficient inflate, ?_⟩
  intro inflate buf
  have h := scanZip_fuel_sufficient inflate (buf.length + 1) buf 0 (by omega)
  rcases Option.isSome_iff_exists.mp h with ⟨r, hr⟩
  refine ⟨r, hr, ?_⟩
  unfold extractSheetNamesFromXlsx
  rw [hr]
  rfl

/-- Witness for C10: fuel `length + 1` suffices on a concrete buffer. -/
theorem c10_witness :
    (scanZip (fun _ => none) 4 [1, 2, 3] 0).isSome = true :=
  c10_scan_terminates.2.1 (fun _ => none) 4 [1, 2, 3] 0 (by decide)

